import Mathlib

/-!
Shallow embedding of the loanword API service (main.py) and verification of
its specification claims.

The service exposes a health endpoint, a database connectivity probe, and a
deck generation endpoint backed by a hardcoded in-memory catalog keyed by
(target language, source language) pairs.
-/

set_option maxHeartbeats 1000000

/-- A vocabulary card as stored in the catalog and returned in responses.
Mirrors the dict literals in CATALOG in main.py. -/
structure Card where
  id : String
  targetLang : String
  «lemma» : String
  sourceLang : String
  sourceForm : String
  gloss : String
  exampleTarget : String
  exampleGloss : String
  ipa : String
deriving DecidableEq, Repr

/-- Card c1 (es, ar): almohada. -/
def cardC1 : Card :=
  { id := "c1", targetLang := "es", «lemma» := "almohada", sourceLang := "ar",
    sourceForm := "al-mikhadda", gloss := "pillow",
    exampleTarget := "La almohada es nueva.", exampleGloss := "The pillow is new.",
    ipa := "al.mo.ˈaða" }

/-- Card c2 (es, ar): aceituna. -/
def cardC2 : Card :=
  { id := "c2", targetLang := "es", «lemma» := "aceituna", sourceLang := "ar",
    sourceForm := "zaytūn", gloss := "olive",
    exampleTarget := "La aceituna es verde.", exampleGloss := "The olive is green.",
    ipa := "a.θei̯.ˈtu.na" }

/-- Card c3 (es, en): hotel. -/
def cardC3 : Card :=
  { id := "c3", targetLang := "es", «lemma» := "hotel", sourceLang := "en",
    sourceForm := "hotel", gloss := "hotel",
    exampleTarget := "El hotel está cerca del mar.", exampleGloss := "The hotel is near the sea.",
    ipa := "oˈtel" }

/-- Card c4 (es, en): fútbol. -/
def cardC4 : Card :=
  { id := "c4", targetLang := "es", «lemma» := "fútbol", sourceLang := "en",
    sourceForm := "football", gloss := "football / soccer",
    exampleTarget := "Me gusta el fútbol.", exampleGloss := "I like football.",
    ipa := "ˈfutβol" }

/-- Card c5 (fr, en): week-end. -/
def cardC5 : Card :=
  { id := "c5", targetLang := "fr", «lemma» := "week-end", sourceLang := "en",
    sourceForm := "weekend", gloss := "weekend",
    exampleTarget := "Le week-end commence vendredi soir.",
    exampleGloss := "The weekend starts Friday night.",
    ipa := "wikˈɛnd" }

/-- The mock catalog: a dict keyed by (target language, source language) pairs,
in insertion order, exactly as written in main.py. -/
def CATALOG : List ((String × String) × List Card) :=
  [ (("es", "ar"), [cardC1, cardC2]),
    (("es", "en"), [cardC3, cardC4]),
    (("fr", "en"), [cardC5]) ]

/-- The request body of POST /v1/decks/generate (pydantic model GenerateRequest). -/
structure GenerateRequest where
  knownLanguages : List String
  targetLanguage : String
  difficulty : String
deriving DecidableEq, Repr

/-- The success body returned by generate_deck. -/
structure DeckBody where
  deckId : String
  targetLanguage : String
  knownLanguages : List String
  difficulty : String
  cards : List Card
deriving DecidableEq, Repr

/-- Result of the deck generation handler: either a 200 success body, or a
JSONResponse with an HTTP status code and an error/message payload. -/
inductive GenResult where
  | ok (body : DeckBody)
  | err (status : Nat) (error : String) (message : String)
deriving DecidableEq, Repr

/-- HTTP status of a generate_deck result (FastAPI returns 200 for a plain dict). -/
def GenResult.statusOf : GenResult → Nat
  | .ok _ => 200
  | .err s _ _ => s

/-- Cards carried by a generate_deck result (empty for error responses). -/
def GenResult.cardsOf : GenResult → List Card
  | .ok body => body.cards
  | .err _ _ _ => []

/-- The deck generation handler of main.py, parameterized by the catalog it
reads (main.py reads the module-level CATALOG).  Validation mirrors the two
guards; the selected pair is the first catalog key whose target component
equals targetLanguage and whose source component is in knownLanguages; the
response echoes the request and carries that key's bucket of cards. -/
def generate_deck (catalog : List ((String × String) × List Card))
    (req : GenerateRequest) : GenResult :=
  if req.knownLanguages = [] then
    .err 400 "VALIDATION_ERROR" "knownLanguages must contain at least one language code"
  else if req.knownLanguages.contains req.targetLanguage then
    .err 400 "VALIDATION_ERROR" "targetLanguage must not be in knownLanguages"
  else
    let pair : Option (String × String) :=
      (catalog.map Prod.fst).find?
        (fun k => k.1 == req.targetLanguage && req.knownLanguages.contains k.2)
    let cards : List Card :=
      match pair with
      | some p => (catalog.lookup p).getD []
      | none => []
    .ok { deckId := "deck_" ++ req.targetLanguage,
          targetLanguage := req.targetLanguage,
          knownLanguages := req.knownLanguages,
          difficulty := req.difficulty,
          cards := cards }

/-- All records of the catalog, in catalog order. -/
def catalogAllCards (catalog : List ((String × String) × List Card)) : List Card :=
  (catalog.map Prod.snd).flatten

/-- The records matching a request per the spec: target_lang equals the target
and source_lang is among the known languages. -/
def matchingCards (catalog : List ((String × String) × List Card))
    (target : String) (known : List String) : List Card :=
  (catalogAllCards catalog).filter
    (fun c => c.targetLang == target && known.contains c.sourceLang)

/-- A SQLAlchemy engine handle, abstracted to the URL it was created from. -/
structure Engine where
  url : String
deriving DecidableEq, Repr

/-- The module-level mutable globals of main.py relevant to the engine cache. -/
structure EngineState where
  engine : Option Engine
  engineError : Option String
deriving DecidableEq, Repr

/-- The process environment: the normalized DATABASE_URL and the outcomes of
the external calls create_engine and SELECT NOW(), modelled as functions. -/
structure Env where
  databaseUrl : Option String
  createEngine : String → Except String Engine
  queryNow : Engine → Except String String

/-- Python truthiness of an optional string: None and the empty string are falsy. -/
def pyTruthyStr : Option String → Bool
  | none => false
  | some s => !(s.data.isEmpty)

/-- Python s1 or s2 for an optional string with a default (x or y). -/
def pyOrStr (o : Option String) (d : String) : String :=
  match o with
  | some x => if x.data.isEmpty then d else x
  | none => d

/-- get_engine of main.py: returns the cached engine when either global is
set, otherwise records the missing-URL error, or attempts engine creation
once and caches either the engine or the error message. -/
def get_engine (env : Env) (s : EngineState) : EngineState × Option Engine :=
  if s.engine.isSome || pyTruthyStr s.engineError then (s, s.engine)
  else
    match env.databaseUrl with
    | none =>
      ({ s with engineError := some "DATABASE_URL missing (set it in Render → Environment)" }, none)
    | some u =>
      if u.data.isEmpty then
        ({ s with engineError := some "DATABASE_URL missing (set it in Render → Environment)" }, none)
      else
        match env.createEngine u with
        | .ok e => ({ s with engine := some e }, some e)
        | .error msg => ({ s with engineError := some msg }, none)

/-- Response of GET /v1/dbtest: either 200 with the query time, or a
JSONResponse with a status code, the body status string and a detail. -/
inductive DbResponse where
  | ok (status : Nat) (statusField : String) (time : String)
  | err (status : Nat) (statusField : String) (detail : String)
deriving DecidableEq, Repr

/-- dbtest of main.py.  The final Nat counts query attempts (executions of
SELECT NOW()): zero when no engine is available, one otherwise. -/
def dbtest (env : Env) (s : EngineState) : EngineState × DbResponse × Nat :=
  match get_engine env s with
  | (s1, none) =>
    (s1, .err 500 "error" (pyOrStr s1.engineError "Database engine not initialized"), 0)
  | (s1, some e) =>
    match env.queryNow e with
    | .ok t => (s1, .ok 200 "ok" t, 1)
    | .error msg => (s1, .err 500 "error" msg, 1)

/-- Response of GET /v1/health. -/
structure HealthResponse where
  status : Nat
  ok : Bool
deriving DecidableEq, Repr

/-- health of main.py: the handler reads no state and returns the constant
body with ok set to true, which FastAPI serves with status 200. -/
def health (_env : Env) (_s : EngineState) : HealthResponse :=
  { status := 200, ok := true }

/-- The deck generation endpoint viewed as a handler over the process state:
generate_deck reads neither engine global and writes nothing, so the state is
passed through unchanged. -/
def app_generate_deck (s : EngineState) (req : GenerateRequest) : EngineState × GenResult :=
  (s, generate_deck CATALOG req)

/-- First occurrence replacement, as in Python str.replace(old, new, 1):
replaces the leftmost occurrence of old, or returns the string unchanged when
old does not occur; an empty old matches at position zero. -/
def replaceFirst (old new : List Char) : List Char → List Char
  | [] => if old.isEmpty then new else []
  | c :: rest =>
    if old.isPrefixOf (c :: rest) then new ++ (c :: rest).drop old.length
    else c :: replaceFirst old new rest

/-- Substring containment, as in Python sub in s (the empty pattern is
contained in every string). -/
def containsSub (pat : List Char) : List Char → Bool
  | [] => pat.isEmpty
  | c :: rest => pat.isPrefixOf (c :: rest) || containsSub pat rest

/-- The characters of postgres://. -/
def pgScheme : List Char := "postgres://".data

/-- The characters of postgresql://. -/
def pgsqlScheme : List Char := "postgresql://".data

/-- The characters of postgresql+psycopg://. -/
def psycopgScheme : List Char := "postgresql+psycopg://".data

/-- The characters of sslmode=. -/
def sslmodeKey : List Char := "sslmode=".data

/-- The characters of sslmode=require. -/
def sslmodeRequire : List Char := "sslmode=require".data

/-- First normalization step of normalize_db_url: rewrite a leading legacy
postgres:// scheme to postgresql://. -/
def normStep1 (u : List Char) : List Char :=
  if pgScheme.isPrefixOf u then replaceFirst pgScheme pgsqlScheme u else u

/-- Second normalization step: rewrite a leading postgresql:// scheme to the
psycopg v3 dialect postgresql+psycopg://. -/
def normStep2 (u : List Char) : List Char :=
  if pgsqlScheme.isPrefixOf u then replaceFirst pgsqlScheme psycopgScheme u else u

/-- Third normalization step: when the URL uses the psycopg dialect and no
sslmode parameter is present, append sslmode=require after ? or &. -/
def normStep3 (u : List Char) : List Char :=
  if psycopgScheme.isPrefixOf u && !(containsSub sslmodeKey u) then
    u ++ (if containsSub ['?'] u then ['&'] else ['?']) ++ sslmodeRequire
  else u

/-- normalize_db_url of main.py: None and the empty string map to None (the
Python falsiness check), otherwise the three rewriting steps are applied. -/
def normalize_db_url (url : Option String) : Option String :=
  match url with
  | none => none
  | some u =>
    if u.data.isEmpty then none
    else some (String.mk (normStep3 (normStep2 (normStep1 u.data))))

/-- Well-formedness of a catalog in the shape of the hardcoded CATALOG: each
bucket holds at most 20 records and every record carries exactly the target
and source language of its key. -/
def catalogWF (catalog : List ((String × String) × List Card)) : Bool :=
  catalog.all (fun e =>
    decide (e.2.length ≤ 20) &&
    e.2.all (fun c => c.targetLang == e.1.1 && c.sourceLang == e.1.2))

/-- C3: a request whose knownLanguages list is empty fails with status 400,
error VALIDATION_ERROR and the knownLanguages message, and this holds for
every catalog whatsoever, so the catalog is never consulted. -/
theorem generate_deck_empty_known (catalog : List ((String × String) × List Card))
    (req : GenerateRequest) (h : req.knownLanguages = []) :
    generate_deck catalog req =
      .err 400 "VALIDATION_ERROR" "knownLanguages must contain at least one language code" := by
  unfold generate_deck
  simp [h]

/-- Witness for C3: the concrete empty-known request fails with the
knownLanguages validation error. -/
theorem generate_deck_empty_known_witness :
    generate_deck CATALOG { knownLanguages := [], targetLanguage := "es", difficulty := "all" } =
      .err 400 "VALIDATION_ERROR" "knownLanguages must contain at least one language code" :=
  generate_deck_empty_known CATALOG
    { knownLanguages := [], targetLanguage := "es", difficulty := "all" } rfl

/-- C4: a request whose targetLanguage appears in knownLanguages fails with
status 400, error VALIDATION_ERROR and the target-overlap message, for every
catalog whatsoever. -/
theorem generate_deck_target_in_known (catalog : List ((String × String) × List Card))
    (req : GenerateRequest) (h : req.targetLanguage ∈ req.knownLanguages) :
    generate_deck catalog req =
      .err 400 "VALIDATION_ERROR" "targetLanguage must not be in knownLanguages" := by
  unfold generate_deck
  have hne : req.knownLanguages ≠ [] := by
    intro hnil
    rw [hnil] at h
    exact (List.not_mem_nil _) h
  simp [hne, h]

/-- Witness for C4: the concrete request with target es and known containing
es fails with the target-overlap validation error. -/
theorem generate_deck_target_in_known_witness :
    generate_deck CATALOG { knownLanguages := ["es"], targetLanguage := "es", difficulty := "all" } =
      .err 400 "VALIDATION_ERROR" "targetLanguage must not be in knownLanguages" :=
  generate_deck_target_in_known CATALOG
    { knownLanguages := ["es"], targetLanguage := "es", difficulty := "all" } (by decide)

/-- Auxiliary: an association-list lookup only returns values paired with the
looked-up key somewhere in the list. -/
theorem lookup_mem {α β : Type} [BEq α] [LawfulBEq α] (a : α) (b : β) :
    ∀ l : List (α × β), l.lookup a = some b → (a, b) ∈ l := by
  intro l
  induction l with
  | nil => intro h; simp [List.lookup] at h
  | cons e rest ih =>
    intro h
    obtain ⟨k, v⟩ := e
    by_cases hk : (a == k) = true
    · have hak : a = k := eq_of_beq hk
      simp only [List.lookup, hk] at h
      have hvb : v = b := Option.some.inj h
      subst hak
      subst hvb
      exact List.mem_cons_self _ _
    · rw [Bool.not_eq_true] at hk
      simp only [List.lookup, hk] at h
      exact List.mem_cons_of_mem _ (ih h)

/-- Auxiliary: over a well-formed catalog, generate_deck returns at most 20
cards, all of them catalog records whose target language is the requested one
and whose source language is among the known languages. -/
theorem generate_deck_cards_spec (catalog : List ((String × String) × List Card))
    (req : GenerateRequest) (hwf : catalogWF catalog = true) :
    (generate_deck catalog req).cardsOf.length ≤ 20 ∧
    ∀ c ∈ (generate_deck catalog req).cardsOf,
      c ∈ catalogAllCards catalog ∧ c.targetLang = req.targetLanguage ∧
      c.sourceLang ∈ req.knownLanguages := by
  unfold generate_deck
  by_cases h1 : req.knownLanguages = []
  · simp [h1, GenResult.cardsOf]
  by_cases h2 : req.knownLanguages.contains req.targetLanguage = true
  · have hmem : req.targetLanguage ∈ req.knownLanguages := by simpa using h2
    simp [h1, hmem, GenResult.cardsOf]
  rw [Bool.not_eq_true] at h2
  simp only [if_neg h1, h2, Bool.false_eq_true, if_false, GenResult.cardsOf]
  cases hfind : (catalog.map Prod.fst).find?
      (fun k => k.1 == req.targetLanguage && req.knownLanguages.contains k.2) with
  | none => simp
  | some k =>
    have hpk := List.find?_some hfind
    simp only [Bool.and_eq_true] at hpk
    obtain ⟨hk1, hk2⟩ := hpk
    have hk1 : k.1 = req.targetLanguage := eq_of_beq hk1
    have hk2 : k.2 ∈ req.knownLanguages := by simpa using hk2
    cases hlook : catalog.lookup k with
    | none => simp [hlook]
    | some bucket =>
      simp only [hlook, Option.getD_some]
      have hmem : (k, bucket) ∈ catalog := lookup_mem k bucket catalog hlook
      have hwf := List.all_eq_true.mp hwf _ hmem
      simp only [Bool.and_eq_true] at hwf
      obtain ⟨hlen, hcards⟩ := hwf
      have hlen : bucket.length ≤ 20 := of_decide_eq_true hlen
      refine ⟨hlen, fun c hc => ?_⟩
      have hcf := List.all_eq_true.mp hcards c hc
      simp only [Bool.and_eq_true] at hcf
      obtain ⟨hct, hcs⟩ := hcf
      have hct : c.targetLang = k.1 := eq_of_beq hct
      have hcs : c.sourceLang = k.2 := eq_of_beq hcs
      refine ⟨?_, by rw [hct, hk1], by rw [hcs]; exact hk2⟩
      unfold catalogAllCards
      rw [List.mem_flatten]
      exact ⟨bucket, List.mem_map_of_mem Prod.snd hmem, hc⟩

/-- C2: for every request with a non-empty knownLanguages list that excludes
targetLanguage, generate_deck returns at most 20 cards, and every returned
card has sourceLang among knownLanguages and targetLang equal to
targetLanguage. -/
theorem generate_deck_limit_and_membership (req : GenerateRequest)
    (h1 : req.knownLanguages ≠ []) (h2 : req.targetLanguage ∉ req.knownLanguages) :
    (generate_deck CATALOG req).cardsOf.length ≤ 20 ∧
    ∀ c ∈ (generate_deck CATALOG req).cardsOf,
      c.sourceLang ∈ req.knownLanguages ∧ c.targetLang = req.targetLanguage := by
  have h := generate_deck_cards_spec CATALOG req (by decide)
  exact ⟨h.1, fun c hc => ⟨(h.2 c hc).2.2, (h.2 c hc).2.1⟩⟩

/-- Witness for C2 at the concrete request (target es, known ar and en). -/
theorem generate_deck_limit_and_membership_witness :
    (generate_deck CATALOG
        { knownLanguages := ["ar", "en"], targetLanguage := "es", difficulty := "all" }).cardsOf.length ≤ 20 ∧
    ∀ c ∈ (generate_deck CATALOG
        { knownLanguages := ["ar", "en"], targetLanguage := "es", difficulty := "all" }).cardsOf,
      c.sourceLang ∈ ["ar", "en"] ∧ c.targetLang = "es" :=
  generate_deck_limit_and_membership
    { knownLanguages := ["ar", "en"], targetLanguage := "es", difficulty := "all" }
    (by decide) (by decide)

/-- Auxiliary: a valid request (non-empty known languages, target not among
them) always gets a 200 response from generate_deck. -/
theorem generate_deck_ok_status (catalog : List ((String × String) × List Card))
    (req : GenerateRequest) (h1 : req.knownLanguages ≠ [])
    (h2 : req.targetLanguage ∉ req.knownLanguages) :
    (generate_deck catalog req).statusOf = 200 := by
  unfold generate_deck
  simp [h1, h2, GenResult.statusOf]

/-- Auxiliary: the cards of a generate_deck response are either empty or
exactly the bucket of some catalog entry. -/
theorem generate_deck_cards_cases (catalog : List ((String × String) × List Card))
    (req : GenerateRequest) :
    (generate_deck catalog req).cardsOf = [] ∨
    ∃ kb, kb ∈ catalog ∧ (generate_deck catalog req).cardsOf = kb.2 := by
  unfold generate_deck
  by_cases h1 : req.knownLanguages = []
  · left; simp [h1, GenResult.cardsOf]
  by_cases h2 : req.knownLanguages.contains req.targetLanguage = true
  · left
    have hmem : req.targetLanguage ∈ req.knownLanguages := by simpa using h2
    simp [h1, hmem, GenResult.cardsOf]
  rw [Bool.not_eq_true] at h2
  simp only [if_neg h1, h2, Bool.false_eq_true, if_false, GenResult.cardsOf]
  cases hfind : (catalog.map Prod.fst).find?
      (fun k => k.1 == req.targetLanguage && req.knownLanguages.contains k.2) with
  | none => left; simp
  | some k =>
    cases hlook : catalog.lookup k with
    | none => left; simp [hlook]
    | some bucket =>
      right
      exact ⟨(k, bucket), lookup_mem k bucket catalog hlook, by simp [hlook]⟩

/-- C6: a valid request matching zero catalog records succeeds with status
200 and an empty cards list rather than failing. -/
theorem generate_deck_zero_matches_empty_ok (req : GenerateRequest)
    (h1 : req.knownLanguages ≠ []) (h2 : req.targetLanguage ∉ req.knownLanguages)
    (hm : matchingCards CATALOG req.targetLanguage req.knownLanguages = []) :
    (generate_deck CATALOG req).statusOf = 200 ∧ (generate_deck CATALOG req).cardsOf = [] := by
  refine ⟨generate_deck_ok_status CATALOG req h1 h2, ?_⟩
  rw [List.eq_nil_iff_forall_not_mem]
  intro c hc
  obtain ⟨hall, ht, hs⟩ := (generate_deck_cards_spec CATALOG req (by decide)).2 c hc
  have hcm : c ∈ matchingCards CATALOG req.targetLanguage req.knownLanguages := by
    unfold matchingCards
    rw [List.mem_filter]
    refine ⟨hall, ?_⟩
    simp [ht, hs]
  rw [hm] at hcm
  exact (List.not_mem_nil c) hcm

/-- Witness for C6: for target de with known en no catalog record matches,
and the response is a 200 with no cards. -/
theorem generate_deck_zero_matches_empty_ok_witness :
    (generate_deck CATALOG
        { knownLanguages := ["en"], targetLanguage := "de", difficulty := "all" }).statusOf = 200 ∧
    (generate_deck CATALOG
        { knownLanguages := ["en"], targetLanguage := "de", difficulty := "all" }).cardsOf = [] :=
  generate_deck_zero_matches_empty_ok
    { knownLanguages := ["en"], targetLanguage := "de", difficulty := "all" }
    (by decide) (by decide) (by decide)

/-- Counterexample for C1: with target es and known ar and en, the record
c3 (hotel, source en) matches the request and fewer than 20 records match in
total, yet c3 is not among the returned cards — the operation does not return
all matching records across the known languages. -/
theorem generate_deck_not_union :
    cardC3 ∈ matchingCards CATALOG "es" ["ar", "en"] ∧
    (matchingCards CATALOG "es" ["ar", "en"]).length < 20 ∧
    cardC3 ∉ (generate_deck CATALOG
        { knownLanguages := ["ar", "en"], targetLanguage := "es", difficulty := "all" }).cardsOf := by
  decide

/-- C1 (amended): for every valid request, the returned cards are exactly the
catalog records of the single language pair given by the first catalog key
(in insertion order) whose target equals targetLanguage and whose source is
among knownLanguages, or no cards when no key matches. -/
theorem generate_deck_first_matching_pair (req : GenerateRequest)
    (h1 : req.knownLanguages ≠ []) (h2 : req.targetLanguage ∉ req.knownLanguages) :
    (generate_deck CATALOG req).cardsOf =
      match (CATALOG.map Prod.fst).find?
          (fun k => k.1 == req.targetLanguage && req.knownLanguages.contains k.2) with
      | some k => matchingCards CATALOG k.1 [k.2]
      | none => [] := by
  have h2b : req.knownLanguages.contains req.targetLanguage = false := by simpa using h2
  unfold generate_deck
  simp only [if_neg h1, h2b, Bool.false_eq_true, if_false, GenResult.cardsOf]
  cases hfind : (CATALOG.map Prod.fst).find?
      (fun k => k.1 == req.targetLanguage && req.knownLanguages.contains k.2) with
  | none => simp
  | some k =>
    have hkmem := List.mem_of_find?_eq_some hfind
    have hk : k = ("es", "ar") ∨ k = ("es", "en") ∨ k = ("fr", "en") := by
      simpa [CATALOG] using hkmem
    rcases hk with rfl | rfl | rfl <;> decide

/-- Witness for the amended C1 at the concrete request (target es, known ar
and en): the returned cards are those of the first matching pair (es, ar). -/
theorem generate_deck_first_matching_pair_witness :
    (generate_deck CATALOG
        { knownLanguages := ["ar", "en"], targetLanguage := "es", difficulty := "all" }).cardsOf =
      match (CATALOG.map Prod.fst).find?
          (fun k => k.1 == "es" && ["ar", "en"].contains k.2) with
      | some k => matchingCards CATALOG k.1 [k.2]
      | none => [] :=
  generate_deck_first_matching_pair
    { knownLanguages := ["ar", "en"], targetLanguage := "es", difficulty := "all" }
    (by decide) (by decide)

/-- Counterexample for C5: for target es with known ar the first returned
card has id c1, which contains neither the target language es nor the target
word almohada as a substring — the id is not a string synthesized from the
target language, target word and position. -/
theorem generate_deck_id_not_synthesized :
    ((generate_deck CATALOG
        { knownLanguages := ["ar"], targetLanguage := "es", difficulty := "all" }).cardsOf.map
      Card.id) = ["c1", "c2"] ∧
    containsSub "es".data "c1".data = false ∧
    containsSub "almohada".data "c1".data = false := by
  decide

/-- C5 (amended): every returned card is a catalog record, so its id is the
fixed identifier stored in the catalog, and the ids within a single response
are pairwise distinct. -/
theorem generate_deck_card_ids (req : GenerateRequest) :
    (∀ c ∈ (generate_deck CATALOG req).cardsOf, c ∈ catalogAllCards CATALOG) ∧
    ((generate_deck CATALOG req).cardsOf.map Card.id).Nodup := by
  constructor
  · intro c hc
    exact ((generate_deck_cards_spec CATALOG req (by decide)).2 c hc).1
  · rcases generate_deck_cards_cases CATALOG req with h | ⟨kb, hkb, h⟩
    · simp [h]
    · rw [h]
      have hall : ∀ kb2 ∈ CATALOG, ((kb2.2.map Card.id)).Nodup := by decide
      exact hall kb hkb

/-- C7: the health endpoint returns ok true with status 200 for every
environment and every engine-cache state — also in the state left behind by
get_engine when DATABASE_URL is unset or engine creation has failed. -/
theorem health_always_ok (env : Env) (s : EngineState) :
    health env s = { status := 200, ok := true } ∧
    health env ((get_engine env s).1) = { status := 200, ok := true } :=
  ⟨rfl, rfl⟩

/-- C10: deck generation is deterministic: invocations with the same request
body in any two process states produce identical responses (same status,
deckId, echoed fields and cards in the same order), and the state is
unchanged; no random sampling occurs. -/
theorem generate_deck_deterministic (s₁ s₂ : EngineState) (req : GenerateRequest) :
    (app_generate_deck s₁ req).2 = (app_generate_deck s₂ req).2 ∧
    (app_generate_deck s₁ req).1 = s₁ :=
  ⟨rfl, rfl⟩

/-- C8: the connectivity probe never makes more than one query attempt; when
no engine is available it answers 500 with body status error and the cached
diagnostic detail without attempting a query, and when the query raises it
answers 500 with body status error and the exception text after exactly one
attempt.  The probe is a total function, so the failure never crashes the
process. -/
theorem dbtest_error_paths (env : Env) (s : EngineState) :
    (dbtest env s).2.2 ≤ 1 ∧
    ((get_engine env s).2 = none →
      (dbtest env s).2.1 =
        .err 500 "error"
          (pyOrStr (get_engine env s).1.engineError "Database engine not initialized") ∧
      (dbtest env s).2.2 = 0) ∧
    (∀ e msg, (get_engine env s).2 = some e → env.queryNow e = .error msg →
      (dbtest env s).2.1 = .err 500 "error" msg ∧ (dbtest env s).2.2 = 1) := by
  cases hge : get_engine env s with
  | mk s1 eng =>
    cases eng with
    | none =>
      refine ⟨?_, ?_, ?_⟩
      · simp [dbtest, hge]
      · intro _
        simp [dbtest, hge]
      · intro e msg hsome _
        simp at hsome
    | some e =>
      cases hq : env.queryNow e with
      | ok t =>
        refine ⟨?_, ?_, ?_⟩
        · simp [dbtest, hge, hq]
        · intro hn
          simp at hn
        · intro e2 msg hsome hqe
          have he : e = e2 := by simpa using hsome
          rw [← he, hq] at hqe
          simp at hqe
      | error msg0 =>
        refine ⟨?_, ?_, ?_⟩
        · simp [dbtest, hge, hq]
        · intro hn
          simp at hn
        · intro e2 msg hsome hqe
          have he : e = e2 := by simpa using hsome
          rw [← he, hq] at hqe
          have hmsg : msg0 = msg := by simpa using hqe
          subst hmsg
          simp [dbtest, hge, hq]

/-- Witness for C8: with DATABASE_URL unset and a fresh engine cache, the
probe answers 500 with the missing-URL detail and makes no query attempt. -/
theorem dbtest_error_paths_witness :
    (dbtest
        { databaseUrl := none, createEngine := fun u => .error u,
          queryNow := fun _ => .error "down" }
        { engine := none, engineError := none }).2.1 =
      .err 500 "error" "DATABASE_URL missing (set it in Render → Environment)" ∧
    (dbtest
        { databaseUrl := none, createEngine := fun u => .error u,
          queryNow := fun _ => .error "down" }
        { engine := none, engineError := none }).2.2 = 0 :=
  (dbtest_error_paths
    { databaseUrl := none, createEngine := fun u => .error u,
      queryNow := fun _ => .error "down" }
    { engine := none, engineError := none }).2.1 rfl

/-- Auxiliary: replacing the first occurrence of a pattern that is a prefix
replaces exactly that leading occurrence. -/
theorem replaceFirst_leading (old rep s : List Char) (h : old.isPrefixOf s = true) :
    replaceFirst old rep s = rep ++ s.drop old.length := by
  cases s with
  | nil =>
    cases old with
    | nil => simp [replaceFirst]
    | cons c cs => simp [List.isPrefixOf] at h
  | cons c rest => simp [replaceFirst, h]

/-- Auxiliary: substring containment is preserved by prepending. -/
theorem containsSub_append_of_right (pat b : List Char) (h : containsSub pat b = true) :
    ∀ a : List Char, containsSub pat (a ++ b) = true := by
  intro a
  induction a with
  | nil => simpa using h
  | cons c cs ih =>
    rw [List.cons_append]
    simp [containsSub, ih]

/-- Auxiliary: a prefix of a list is a prefix of any right extension of it. -/
theorem isPrefixOf_append_extend (p v w : List Char) (h : p.isPrefixOf v = true) :
    p.isPrefixOf (v ++ w) = true := by
  rw [List.isPrefixOf_iff_prefix] at h ⊢
  exact h.trans (List.prefix_append v w)

/-- Auxiliary: every list is a prefix of itself extended on the right. -/
theorem isPrefixOf_self_append (p w : List Char) : p.isPrefixOf (p ++ w) = true := by
  rw [List.isPrefixOf_iff_prefix]
  exact List.prefix_append p w

/-- Auxiliary: a URL in the psycopg dialect does not start with the legacy
postgres:// scheme. -/
theorem psycopg_not_pg (r : List Char) (h : psycopgScheme.isPrefixOf r = true) :
    pgScheme.isPrefixOf r = false := by
  by_contra hc
  rw [Bool.not_eq_false] at hc
  rw [List.isPrefixOf_iff_prefix] at h hc
  have hpp : pgScheme <+: psycopgScheme :=
    List.prefix_of_prefix_length_le hc h (by decide)
  exact absurd hpp (by decide)

/-- Auxiliary: a URL in the psycopg dialect does not start with the plain
postgresql:// scheme. -/
theorem psycopg_not_pgsql (r : List Char) (h : psycopgScheme.isPrefixOf r = true) :
    pgsqlScheme.isPrefixOf r = false := by
  by_contra hc
  rw [Bool.not_eq_false] at hc
  rw [List.isPrefixOf_iff_prefix] at h hc
  have hpp : pgsqlScheme <+: psycopgScheme :=
    List.prefix_of_prefix_length_le hc h (by decide)
  exact absurd hpp (by decide)

/-- Auxiliary: first step on a URL with the legacy scheme. -/
theorem normStep1_rewrites (u : List Char) (h : pgScheme.isPrefixOf u = true) :
    normStep1 u = pgsqlScheme ++ u.drop pgScheme.length := by
  rw [normStep1, if_pos h, replaceFirst_leading _ _ _ h]

/-- Auxiliary: first step on a URL without the legacy scheme. -/
theorem normStep1_id (u : List Char) (h : pgScheme.isPrefixOf u = false) :
    normStep1 u = u := by
  simp [normStep1, h]

/-- Auxiliary: second step on a URL with the postgresql scheme. -/
theorem normStep2_rewrites (u : List Char) (h : pgsqlScheme.isPrefixOf u = true) :
    normStep2 u = psycopgScheme ++ u.drop pgsqlScheme.length := by
  rw [normStep2, if_pos h, replaceFirst_leading _ _ _ h]

/-- Auxiliary: second step on a URL without the postgresql scheme. -/
theorem normStep2_id (u : List Char) (h : pgsqlScheme.isPrefixOf u = false) :
    normStep2 u = u := by
  simp [normStep2, h]

/-- Auxiliary: third step on a URL not in the psycopg dialect. -/
theorem normStep3_id (u : List Char) (h : psycopgScheme.isPrefixOf u = false) :
    normStep3 u = u := by
  simp [normStep3, h]

/-- Auxiliary: after the third step, a psycopg-dialect URL both keeps its
scheme and carries an sslmode parameter. -/
theorem normStep3_props (v : List Char) (h : psycopgScheme.isPrefixOf v = true) :
    psycopgScheme.isPrefixOf (normStep3 v) = true ∧
    containsSub sslmodeKey (normStep3 v) = true := by
  by_cases hss : containsSub sslmodeKey v = true
  · have h3 : normStep3 v = v := by simp [normStep3, hss]
    rw [h3]
    exact ⟨h, hss⟩
  · rw [Bool.not_eq_true] at hss
    have h3 : normStep3 v =
        v ++ ((if containsSub ['?'] v then ['&'] else ['?']) ++ sslmodeRequire) := by
      rw [normStep3, h, hss]
      simp
    rw [h3]
    constructor
    · exact isPrefixOf_append_extend _ _ _ h
    · apply containsSub_append_of_right
      by_cases hq : containsSub ['?'] v = true
      · rw [if_pos hq]; decide
      · rw [Bool.not_eq_true] at hq
        rw [hq]
        decide

/-- Auxiliary: a psycopg-dialect URL that already carries an sslmode
parameter is a fixed point of all three normalization steps. -/
theorem norm_fixpoint_psycopg (r : List Char)
    (hp : psycopgScheme.isPrefixOf r = true) (hs : containsSub sslmodeKey r = true) :
    normStep3 (normStep2 (normStep1 r)) = r := by
  rw [normStep1_id r (psycopg_not_pg r hp),
    normStep2_id r (psycopg_not_pgsql r hp)]
  rw [normStep3, hp, hs]
  simp

/-- Auxiliary: when the normalized form is not in the psycopg dialect, no
step fired, so the input passed through all three steps unchanged and starts
with none of the three schemes. -/
theorem norm_unchanged_of_not_psycopg (u : List Char)
    (h : psycopgScheme.isPrefixOf (normStep2 (normStep1 u)) = false) :
    normStep2 (normStep1 u) = u ∧ pgScheme.isPrefixOf u = false ∧
    pgsqlScheme.isPrefixOf u = false := by
  have hsq : pgsqlScheme.isPrefixOf (normStep1 u) = false := by
    by_contra hc
    rw [Bool.not_eq_false] at hc
    rw [normStep2_rewrites _ hc, isPrefixOf_self_append] at h
    exact absurd h (by decide)
  have hpg : pgScheme.isPrefixOf u = false := by
    by_contra hc
    rw [Bool.not_eq_false] at hc
    rw [normStep1_rewrites _ hc, isPrefixOf_self_append] at hsq
    exact absurd hsq (by decide)
  have h1 : normStep1 u = u := normStep1_id u hpg
  rw [h1] at hsq
  have h2 : normStep2 u = u := normStep2_id u hsq
  rw [h1, h2]
  exact ⟨rfl, hpg, hsq⟩

/-- Auxiliary: the composite of the three normalization steps is idempotent
on character lists. -/
theorem normSteps_idem (u : List Char) :
    normStep3 (normStep2 (normStep1 (normStep3 (normStep2 (normStep1 u))))) =
      normStep3 (normStep2 (normStep1 u)) := by
  by_cases hpsy : psycopgScheme.isPrefixOf (normStep2 (normStep1 u)) = true
  · obtain ⟨hp, hs⟩ := normStep3_props _ hpsy
    exact norm_fixpoint_psycopg _ hp hs
  · rw [Bool.not_eq_true] at hpsy
    obtain ⟨heq, -, -⟩ := norm_unchanged_of_not_psycopg u hpsy
    rw [heq] at hpsy
    rw [heq, normStep3_id _ hpsy, heq, normStep3_id _ hpsy]

/-- Auxiliary: the normalization steps never turn a non-empty URL into an
empty one. -/
theorem normSteps_ne_nil (u : List Char) (h : u ≠ []) :
    normStep3 (normStep2 (normStep1 u)) ≠ [] := by
  have hschemes : pgsqlScheme ≠ [] ∧ psycopgScheme ≠ [] ∧ sslmodeRequire ≠ [] := by decide
  have h1 : normStep1 u ≠ [] := by
    by_cases hp : pgScheme.isPrefixOf u = true
    · rw [normStep1_rewrites u hp]
      intro hc
      exact hschemes.1 (List.append_eq_nil.mp hc).1
    · rw [Bool.not_eq_true] at hp
      rw [normStep1_id u hp]
      exact h
  have h2 : normStep2 (normStep1 u) ≠ [] := by
    by_cases hp : pgsqlScheme.isPrefixOf (normStep1 u) = true
    · rw [normStep2_rewrites _ hp]
      intro hc
      exact hschemes.2.1 (List.append_eq_nil.mp hc).1
    · rw [Bool.not_eq_true] at hp
      rw [normStep2_id _ hp]
      exact h1
  by_cases hp : psycopgScheme.isPrefixOf (normStep2 (normStep1 u)) = true
  · by_cases hss : containsSub sslmodeKey (normStep2 (normStep1 u)) = true
    · have h3 : normStep3 (normStep2 (normStep1 u)) = normStep2 (normStep1 u) := by
        simp [normStep3, hss]
      rw [h3]
      exact h2
    · rw [Bool.not_eq_true] at hss
      have h3 : normStep3 (normStep2 (normStep1 u)) =
          normStep2 (normStep1 u) ++
            ((if containsSub ['?'] (normStep2 (normStep1 u)) then ['&'] else ['?']) ++
              sslmodeRequire) := by
        rw [normStep3, hp, hss]
        simp
      rw [h3]
      intro hc
      exact hschemes.2.2 (List.append_eq_nil.mp (List.append_eq_nil.mp hc).2).2
  · rw [Bool.not_eq_true] at hp
    rw [normStep3_id _ hp]
    exact h2

/-- C9: normalize_db_url is idempotent: applying it to its own output (on any
string or None) leaves the output unchanged. -/
theorem normalize_db_url_idempotent (url : Option String) :
    normalize_db_url (normalize_db_url url) = normalize_db_url url := by
  cases url with
  | none => rfl
  | some u =>
    by_cases he : u.data.isEmpty = true
    · simp [normalize_db_url, he]
    · rw [Bool.not_eq_true] at he
      have hne : u.data ≠ [] := by
        intro hc
        rw [hc] at he
        exact absurd he (by decide)
      have hw : normStep3 (normStep2 (normStep1 u.data)) ≠ [] := normSteps_ne_nil u.data hne
      have hwE : (normStep3 (normStep2 (normStep1 u.data))).isEmpty = false := by
        by_contra hc
        rw [Bool.not_eq_false, List.isEmpty_iff] at hc
        exact hw hc
      have hstep : normalize_db_url (some u) =
          some (String.mk (normStep3 (normStep2 (normStep1 u.data)))) := by
        simp [normalize_db_url, he]
      have hstep2 : normalize_db_url
            (some (String.mk (normStep3 (normStep2 (normStep1 u.data))))) =
          some (String.mk (normStep3 (normStep2 (normStep1
            (normStep3 (normStep2 (normStep1 u.data))))))) := by
        simp [normalize_db_url, hwE]
      rw [hstep, hstep2, normSteps_idem]

/-- Witness for the amended C5 at the concrete request (target es, known ar):
the returned cards are catalog records and their ids are pairwise distinct. -/
theorem generate_deck_card_ids_witness :
    (∀ c ∈ (generate_deck CATALOG
        { knownLanguages := ["ar"], targetLanguage := "es", difficulty := "all" }).cardsOf,
      c ∈ catalogAllCards CATALOG) ∧
    ((generate_deck CATALOG
        { knownLanguages := ["ar"], targetLanguage := "es", difficulty := "all" }).cardsOf.map
      Card.id).Nodup :=
  generate_deck_card_ids
    { knownLanguages := ["ar"], targetLanguage := "es", difficulty := "all" }
